import Mathlib

/-!
Shallow embedding of the analytic core of the pharmacovigilance repository
(`src/forecasting.py`), together with theorems checking the natural-language
specification against it.

Conventions of the embedding:
* a pandas DataFrame holding a quarterly series is a `List (Date × ℚ)`
  (the `ds` and `y` columns, row by row); counts are rationals because the
  Python values are numbers and every operation of the source on them is
  field arithmetic;
* a pandas value that would be `NaN` is represented by `none` in an
  `Option`-typed column (pandas comparisons with `NaN` are `False`, which
  the embedding reproduces explicitly);
* Python `round` (banker's rounding to `n` decimal places) and `int`
  (truncation toward zero) are modelled exactly on ℚ;
* `Real.sqrt` is used where the source takes a square root (standard
  deviations), so those values live in ℝ.
-/

/-- Calendar date, as carried by the `ds` column. -/
structure Date where
  year : ℕ
  month : ℕ
  day : ℕ
deriving DecidableEq, Inhabited

/-- Strict ordering on dates (lexicographic year, month, day), as pandas
compares datetime values. -/
def Date.ltb (a b : Date) : Bool :=
  decide (a.year < b.year) ||
    (decide (a.year = b.year) &&
      (decide (a.month < b.month) ||
        (decide (a.month = b.month) && decide (a.day < b.day))))

/-- Maximum of a date and a list of dates (`df['ds'].max()` on a non-empty
column, applied to head and tail). -/
def maxDate (d : Date) (l : List Date) : Date :=
  l.foldl (fun acc x => if acc.ltb x then x else acc) d

/-- Minimum of a date and a list of dates (`df['ds'].min()`). -/
def minDate (d : Date) (l : List Date) : Date :=
  l.foldl (fun acc x => if x.ltb acc then x else acc) d

/-- Zero-pad a natural number to two digits, as `strftime` does for `%m`/`%d`. -/
def pad2 (n : ℕ) : String :=
  if n < 10 then "0" ++ toString n else toString n

/-- Zero-pad a natural number to four digits, as `strftime` does for `%Y`. -/
def pad4 (n : ℕ) : String :=
  if n < 10 then "000" ++ toString n
  else if n < 100 then "00" ++ toString n
  else if n < 1000 then "0" ++ toString n
  else toString n

/-- The `strftime('%Y-%m-%d')` rendering used by `generate_summary_stats`. -/
def strftimeYmd (d : Date) : String :=
  pad4 d.year ++ "-" ++ pad2 d.month ++ "-" ++ pad2 d.day

/-- Python `int()` on a number: truncation toward zero. -/
def pyInt (q : ℚ) : ℤ :=
  if 0 ≤ q then ⌊q⌋ else ⌈q⌉

/-- Round a rational to the nearest integer, ties to even (the rounding of
Python's `round`). -/
def roundHalfEven (q : ℚ) : ℤ :=
  if q - ⌊q⌋ < 1/2 then ⌊q⌋
  else if 1/2 < q - ⌊q⌋ then ⌊q⌋ + 1
  else if ⌊q⌋ % 2 = 0 then ⌊q⌋ else ⌊q⌋ + 1

/-- Python `round(q, n)`: banker's rounding to `n` decimal places. -/
def pyRound (q : ℚ) (n : ℕ) : ℚ :=
  (roundHalfEven (q * 10 ^ n) : ℚ) / 10 ^ n

/-- Round a real to the nearest integer, ties to even (the rounding of
Python's `round`, for real-valued quantities such as standard deviations). -/
noncomputable def roundHalfEvenR (x : ℝ) : ℤ :=
  if x - ⌊x⌋ < 1/2 then ⌊x⌋
  else if 1/2 < x - ⌊x⌋ then ⌊x⌋ + 1
  else if ⌊x⌋ % 2 = 0 then ⌊x⌋ else ⌊x⌋ + 1

/-- Python `round(x, n)` on a real value. -/
noncomputable def pyRoundR (x : ℝ) (n : ℕ) : ℝ :=
  (roundHalfEvenR (x * 10 ^ n) : ℝ) / 10 ^ n

/-- Mean of a list of rationals (`Series.mean()`; only ever applied to
non-empty lists by the source). -/
def listMean (l : List ℚ) : ℚ :=
  l.sum / l.length

/-- Flag computed for row `i` by `detect_safety_signals` (lines 64–70 of
`src/forecasting.py`): row 0 has `NaN` diff and pct_change, hence is never
flagged; otherwise the flag is `abs_change > min_reports` (strict) and
`pct_change > 50`, where a zero previous count makes `pct_change` `+inf`
(compares above 50 exactly when the current count is positive) and a zero
over zero makes it `NaN` (never above 50). -/
def signalFlag (ys : List ℚ) (minReports : ℚ) (i : ℕ) : Bool :=
  if i = 0 ∨ ys.length ≤ i then false
  else
    let prev := ys.getD (i - 1) 0
    let curr := ys.getD i 0
    decide (curr - prev > minReports) &&
      (if prev = 0 then decide (0 < curr)
       else decide ((curr - prev) / prev * 100 > 50))

/-- Row indices returned by `detect_safety_signals` (lines 59–76): empty when
the series has fewer than 2 rows, otherwise the rows whose flag holds, in
chronological order. -/
def signalIndices (ys : List ℚ) (minReports : ℚ) : List ℕ :=
  if ys.length < 2 then []
  else (List.range ys.length).filter (fun i => signalFlag ys minReports i)

/-- One row of the output of `compare_drug_trends` (lines 89–95). -/
structure ComparisonRow where
  drug : String
  total_reports : ℤ
  recent_avg_quarterly : ℚ
  peak_quarter : Date
  peak_reports : ℤ
deriving DecidableEq

/-- Maximum of a non-empty list of rationals, via head and tail
(`Series.max()`). -/
def listMaxQ (x : ℚ) (xs : List ℚ) : ℚ :=
  xs.foldl max x

/-- Index of the first occurrence of the maximum (`Series.idxmax()`). -/
def idxmaxQ (x : ℚ) (xs : List ℚ) : ℕ :=
  (x :: xs).findIdx (fun y => decide (y = listMaxQ x xs))

/-- Last `n` elements of a list (`Series.tail(n)`). -/
def lastN (n : ℕ) (l : List ℚ) : List ℚ :=
  l.drop (l.length - n)

/-- The comparison row built by `compare_drug_trends` for one drug's frame
(lines 82–95): `None` when the frame is empty (the loop skips it), otherwise
the totals, the recent average (last-4 mean when at least 4 rows exist, the
whole-series mean otherwise, rounded to 1 decimal), and the peak row chosen
by `idxmax` (first occurrence of the maximum). -/
def compareRow (drug : String) (rows : List (Date × ℚ)) : Option ComparisonRow :=
  match rows with
  | [] => none
  | r :: rs =>
    let ys := (r :: rs).map Prod.snd
    let recent := if 4 ≤ ys.length then listMean (lastN 4 ys) else listMean ys
    some
      { drug := drug
        total_reports := pyInt ys.sum
        recent_avg_quarterly := pyRound recent 1
        peak_quarter := ((r :: rs).getD (idxmaxQ r.2 (rs.map Prod.snd)) r).1
        peak_reports := pyInt (listMaxQ r.2 (rs.map Prod.snd)) }

/-- The full output of `compare_drug_trends` over the drug → frame mapping
(lines 79–97), one row per non-empty frame, in iteration order. -/
def compareDrugTrends (data : List (String × List (Date × ℚ))) : List ComparisonRow :=
  data.filterMap (fun p => compareRow p.1 p.2)

/-- Trailing rolling window of up to 4 elements ending at index `i`
(pandas `rolling(window=4, min_periods=1)` over the `y` column,
line 44 of `src/forecasting.py`). -/
def rollingWindow (ys : List ℚ) (i : ℕ) : List ℚ :=
  (ys.take (i + 1)).drop (i + 1 - 4)

/-- Sample variance with `ddof = 1`, `none` on fewer than 2 points — pandas
`.std()` squared is this, and on a single observation pandas produces `NaN`.
-/
def sampleVar (l : List ℚ) : Option ℚ :=
  if l.length < 2 then none
  else some ((l.map (fun x => (x - listMean l) ^ 2)).sum / ((l.length : ℚ) - 1))

/-- Rolling mean column of `detect_anomalies` (line 44). -/
def rollingMean (ys : List ℚ) (i : ℕ) : ℚ :=
  listMean (rollingWindow ys i)

/-- Rolling sample variance at index `i`; the rolling `std` column of
`detect_anomalies` (line 45) is its square root, `NaN` (`none`) where the
window holds a single point. -/
def rollingVar (ys : List ℚ) (i : ℕ) : Option ℚ :=
  sampleVar (rollingWindow ys i)

/-- The `1e-10` denominator guard of line 48. -/
noncomputable def eps : ℝ := 1 / 10 ^ 10

/-- The `z_score` column of `detect_anomalies` (line 48):
`(y - rolling_mean) / (rolling_std + 1e-10)`, `NaN` (`none`) where the
rolling std is `NaN`. -/
noncomputable def zScore (ys : List ℚ) (i : ℕ) : Option ℝ :=
  (rollingVar ys i).map
    (fun v => ((ys.getD i 0 : ℝ) - (rollingMean ys i : ℝ)) / (Real.sqrt (v : ℝ) + eps))

/-- The `is_anomaly` flag of line 49: `abs(z_score) > threshold`, which is
false where the z-score is `NaN` (pandas comparisons with `NaN` are false).
-/
noncomputable def isAnomaly (ys : List ℚ) (i : ℕ) (t : ℝ) : Prop :=
  match rollingVar ys i with
  | none => False
  | some v => |((ys.getD i 0 : ℝ) - (rollingMean ys i : ℝ))| / (Real.sqrt (v : ℝ) + eps) > t

open Classical in
/-- Row indices returned by `detect_anomalies` (lines 39–56): empty when the
series has fewer than 3 rows, otherwise the rows whose `is_anomaly` flag
holds. -/
noncomputable def anomalyIndices (ys : List ℚ) (t : ℝ) : Finset ℕ :=
  if ys.length < 3 then ∅
  else (Finset.range ys.length).filter (fun i => isAnomaly ys i t)

/-- State of a quarterly DataFrame as seen by the callers: its `ds` and `y`
columns plus the names of any derived columns that in-place assignments
(`df['mean'] = ...`, `df['pct_change'] = ...`) have added to the object. -/
structure Frame where
  ds : List Date
  y : List ℚ
  extraCols : List String
deriving DecidableEq

/-- Effect of `detect_anomalies` on its argument: rows with fewer than 3
entries are returned untouched (the early return at line 40), otherwise
lines 44–49 assign four new columns on the input frame in place. -/
def detectAnomaliesEffect (f : Frame) : Frame :=
  if f.y.length < 3 then f
  else { f with extraCols := f.extraCols ++ ["mean", "std", "z_score", "is_anomaly"] }

/-- Effect of `detect_safety_signals` on its argument: untouched below 2
rows (line 60), otherwise lines 64–65 assign two new columns on the input
frame in place. -/
def detectSafetySignalsEffect (f : Frame) : Frame :=
  if f.y.length < 2 then f
  else { f with extraCols := f.extraCols ++ ["pct_change", "abs_change"] }

/-- Effect of `compare_drug_trends` on its argument mapping: the loop only
reads the frames (lines 82–95), so the input is unchanged. -/
def compareDrugTrendsEffect (data : List (String × Frame)) : List (String × Frame) :=
  data

/-- Effect of `generate_summary_stats` on its series argument: the function
only reads `df` (lines 101–119), so the input is unchanged. -/
def generateSummaryStatsEffect (f : Frame) : Frame :=
  f

/-- Errors the spec's error taxonomy names for the forecasting path. -/
inductive PipelineError where
  | insufficientDataError
deriving DecidableEq

/-- A fitted model as far as the callers can observe it: the training data
and the changepoint prior handed to the library (lines 14–22). -/
structure ProphetModel where
  trainDs : List Date
  trainY : List ℚ
  changepointPrior : ℚ
deriving DecidableEq

/-- Embedding of `train_prophet_model` (lines 9–25) with its raise behaviour
made explicit: on fewer than 2 rows the function prints a notice and returns
`None` — it raises nothing, so the result is `.ok none`, never `.error`;
otherwise it fits and returns the model. -/
def trainProphetModel (rows : List (Date × ℚ)) (changepointPrior : ℚ) :
    Except PipelineError (Option ProphetModel) :=
  if rows.length < 2 then .ok none
  else .ok (some ⟨rows.map Prod.fst, rows.map Prod.snd, changepointPrior⟩)

/-- One row of a forecast frame: `ds`, `yhat`, `yhat_lower`, `yhat_upper`. -/
structure ForecastRow where
  ds : Date
  yhat : ℚ
  yhat_lower : ℚ
  yhat_upper : ℚ
deriving DecidableEq

/-- Embedding of `generate_forecast` (lines 28–36), parametric in the
external library's prediction function (`model.predict`, out of scope per
the spec): an absent model yields an empty frame. -/
def generateForecast (predict : ProphetModel → ℕ → List ForecastRow)
    (model : Option ProphetModel) (periods : ℕ) : List ForecastRow :=
  match model with
  | none => []
  | some m => predict m periods

/-- A date-valued field of the summary digest: either a semantic date value
or a pre-formatted string. The source stores `strftime` strings. -/
inductive DVal where
  | str (s : String)
  | date (d : Date)
deriving DecidableEq

/-- The digest built by `generate_summary_stats` for a non-empty series
(lines 104–119). `std_quarterly_reports` is `none` when pandas' sample std
is `NaN` (single-row series); the three forecast fields are `none` exactly
when the source omits the keys. -/
structure SummaryStats where
  total_reports : ℤ
  avg_quarterly_reports : ℚ
  std_quarterly_reports : Option ℝ
  trend : String
  recent_quarter_reports : ℤ
  data_start : DVal
  data_end : DVal
  forecast_next_quarter : Option ℚ
  forecast_upper_bound : Option ℚ
  forecast_lower_bound : Option ℚ

/-- Embedding of `generate_summary_stats` (lines 100–121): `none` for an
empty series (the `{}` early return), otherwise the stats dict. The
forecast fields read the first row of `forecast[forecast['ds'] > df['ds'].max()]`
when that filter is non-empty and are omitted otherwise. -/
noncomputable def generateSummaryStats (rows : List (Date × ℚ))
    (forecast : List ForecastRow) : Option SummaryStats :=
  match rows with
  | [] => none
  | r :: rs =>
    let ys := (r :: rs).map Prod.snd
    let lastDs := maxDate r.1 (rs.map Prod.fst)
    let future := forecast.filter (fun fr => lastDs.ltb fr.ds)
    some
      { total_reports := pyInt ys.sum
        avg_quarterly_reports := pyRound (listMean ys) 2
        std_quarterly_reports :=
          (sampleVar ys).map (fun v : ℚ => pyRoundR (Real.sqrt (v : ℝ)) 2)
        trend := if ys.headD 0 < ys.getLastD 0 then "increasing" else "decreasing"
        recent_quarter_reports := pyInt (ys.getLastD 0)
        data_start := DVal.str (strftimeYmd (minDate r.1 (rs.map Prod.fst)))
        data_end := DVal.str (strftimeYmd lastDs)
        forecast_next_quarter := future.head?.map (fun fr => pyRound fr.yhat 1)
        forecast_upper_bound := future.head?.map (fun fr => pyRound fr.yhat_upper 1)
        forecast_lower_bound := future.head?.map (fun fr => pyRound fr.yhat_lower 1) }

/-- C1 counterexample: on the series `[10, 20]` with `min_absolute_increase
= 10`, the absolute change of the second quarter equals the threshold
exactly and its percent change is 100 > 50, yet `detect_safety_signals`
flags nothing — the source compares `abs_change > min_reports` strictly,
so the boundary case the claim asserts to be flagged is not flagged. -/
theorem signal_threshold_boundary_not_flagged :
    signalIndices [10, 20] 10 = [] ∧
      (20 : ℚ) - 10 ≥ 10 ∧ ((20 : ℚ) - 10) / 10 * 100 > 50 := by
  refine ⟨?_, by norm_num, by norm_num⟩
  norm_num [signalIndices, signalFlag, List.range_succ]

/-- C1 (amended): for every series of length at least 2, period `i` is
flagged by `detect_safety_signals` exactly when `i ≥ 1`, the absolute
change strictly exceeds `min_reports`, and the percent change exceeds 50
(where a zero base flags exactly when the current count is positive); in
particular every returned record satisfies the strict version of both
conditions. -/
theorem signal_flag_characterization (ys : List ℚ) (minReports : ℚ)
    (h : 2 ≤ ys.length) (i : ℕ) (hi : i < ys.length) :
    i ∈ signalIndices ys minReports ↔
      1 ≤ i ∧ ys.getD i 0 - ys.getD (i - 1) 0 > minReports ∧
        (if ys.getD (i - 1) 0 = 0 then 0 < ys.getD i 0
         else (ys.getD i 0 - ys.getD (i - 1) 0) / ys.getD (i - 1) 0 * 100 > 50) := by
  unfold signalIndices
  rw [if_neg (by omega)]
  rw [List.mem_filter, List.mem_range]
  rcases Nat.eq_zero_or_pos i with h0 | h0
  · subst h0
    simp [signalFlag]
  · have hcond : ¬ (i = 0 ∨ ys.length ≤ i) := by omega
    unfold signalFlag
    rw [if_neg hcond]
    simp only [hi, true_and, Bool.and_eq_true, decide_eq_true_eq]
    constructor
    · rintro ⟨habs, hpct⟩
      refine ⟨h0, habs, ?_⟩
      split at hpct <;> rename_i hprev
      · rw [if_pos hprev]
        exact of_decide_eq_true hpct
      · rw [if_neg hprev]
        exact of_decide_eq_true hpct
    · rintro ⟨-, habs, hpct⟩
      refine ⟨habs, ?_⟩
      split <;> rename_i hprev
      · rw [if_pos hprev] at hpct
        exact decide_eq_true hpct
      · rw [if_neg hprev] at hpct
        exact decide_eq_true hpct

/-- Witness for C1 (amended): on the series `[10, 25]` with threshold 10,
period 1 is flagged and indeed has absolute change 15 > 10 and percent
change 150 > 50. -/
theorem signal_flag_characterization_instance :
    2 ≤ ([10, 25] : List ℚ).length ∧ 1 < ([10, 25] : List ℚ).length ∧
      (1 ∈ signalIndices [10, 25] 10 ↔
        1 ≤ 1 ∧ ([10, 25] : List ℚ).getD 1 0 - ([10, 25] : List ℚ).getD (1 - 1) 0 > 10 ∧
          (if ([10, 25] : List ℚ).getD (1 - 1) 0 = 0 then
              0 < ([10, 25] : List ℚ).getD 1 0
           else (([10, 25] : List ℚ).getD 1 0 - ([10, 25] : List ℚ).getD (1 - 1) 0) /
              ([10, 25] : List ℚ).getD (1 - 1) 0 * 100 > 50)) :=
  ⟨by norm_num, by norm_num,
    signal_flag_characterization [10, 25] 10 (by norm_num) 1 (by norm_num)⟩

/-- Raising the threshold weakens the anomaly flag for every row (NaN rows
are flagged at no threshold). -/
lemma isAnomaly_mono (ys : List ℚ) (i : ℕ) (t1 t2 : ℝ) (h : t1 ≤ t2) :
    isAnomaly ys i t2 → isAnomaly ys i t1 := by
  unfold isAnomaly
  cases rollingVar ys i with
  | none => exact id
  | some v => exact fun hgt => lt_of_le_of_lt h hgt

/-- C4: for every series and thresholds `t1 ≤ t2`, the rows flagged by
`detect_anomalies` at `t2` are a subset of those flagged at `t1`, and in
particular their number never increases when the threshold is raised. -/
theorem anomaly_threshold_monotone (ys : List ℚ) (t1 t2 : ℝ) (h : t1 ≤ t2) :
    anomalyIndices ys t2 ⊆ anomalyIndices ys t1 ∧
      (anomalyIndices ys t2).card ≤ (anomalyIndices ys t1).card := by
  have hsub : anomalyIndices ys t2 ⊆ anomalyIndices ys t1 := by
    classical
    unfold anomalyIndices
    split
    · exact fun x hx => hx
    · intro i hi
      rw [Finset.mem_filter] at hi ⊢
      exact ⟨hi.1, isAnomaly_mono ys i t1 t2 h hi.2⟩
  exact ⟨hsub, Finset.card_le_card hsub⟩

/-- Witness for C4 at the series `[1, 2, 3]` and thresholds `1 ≤ 2`. -/
theorem anomaly_threshold_monotone_instance :
    (1 : ℝ) ≤ 2 ∧
      (anomalyIndices [1, 2, 3] 2 ⊆ anomalyIndices [1, 2, 3] 1 ∧
        (anomalyIndices [1, 2, 3] 2).card ≤ (anomalyIndices [1, 2, 3] 1).card) :=
  ⟨by norm_num, anomaly_threshold_monotone [1, 2, 3] 1 2 (by norm_num)⟩

/-- C5 counterexample: on the series `[1, 2, 3]`, the first row's rolling
window holds a single point, so pandas' sample standard deviation there is
`NaN` (`none`) rather than the 0 the claim states, and the first row's
z-score is `NaN` (`none`) rather than 0. -/
theorem first_window_std_is_nan :
    rollingVar [1, 2, 3] 0 = none ∧ zScore [1, 2, 3] 0 ≠ some 0 := by
  have hv : rollingVar [1, 2, 3] 0 = none := rfl
  exact ⟨hv, by simp [zScore, hv]⟩

/-- C5 (amended): for every series of length at least 3, row `i` uses the
trailing window of `min (i+1) 4` consecutive counts ending at `i` (shorter
at the start, minimum size 1); the first row's window has a single point,
its sample standard deviation is `NaN` (`none`, not 0), hence its z-score is
`NaN` and the first row is flagged at no threshold. -/
theorem rolling_window_and_first_period (ys : List ℚ) (h : 3 ≤ ys.length) :
    (∀ i, i < ys.length →
      (rollingWindow ys i).length = min (i + 1) 4 ∧
        1 ≤ (rollingWindow ys i).length ∧
        ∀ k, k < min (i + 1) 4 →
          (rollingWindow ys i)[k]? = ys[i + 1 - min (i + 1) 4 + k]?) ∧
      rollingVar ys 0 = none ∧ zScore ys 0 = none ∧ ∀ t : ℝ, ¬ isAnomaly ys 0 t := by
  have hwin : ∀ i, i < ys.length → (rollingWindow ys i).length = min (i + 1) 4 := by
    intro i hi
    simp only [rollingWindow, List.length_drop, List.length_take]
    omega
  have hvar : rollingVar ys 0 = none := by
    have h1 : (rollingWindow ys 0).length = 1 := by
      have := hwin 0 (by omega)
      simpa using this
    rw [rollingVar, sampleVar, if_pos (by omega)]
  refine ⟨?_, hvar, by simp [zScore, hvar], ?_⟩
  · intro i hi
    refine ⟨hwin i hi, by rw [hwin i hi]; omega, ?_⟩
    intro k hk
    rw [rollingWindow, List.getElem?_drop, List.getElem?_take_of_lt (by omega)]
    congr 1
    omega
  · intro t
    unfold isAnomaly
    rw [hvar]
    exact id

/-- Witness for C5 (amended) at the series `[1, 2, 3]`. -/
theorem rolling_window_and_first_period_instance :
    3 ≤ ([1, 2, 3] : List ℚ).length ∧
      ((∀ i, i < ([1, 2, 3] : List ℚ).length →
        (rollingWindow [1, 2, 3] i).length = min (i + 1) 4 ∧
          1 ≤ (rollingWindow [1, 2, 3] i).length ∧
          ∀ k, k < min (i + 1) 4 →
            (rollingWindow [1, 2, 3] i)[k]? =
              ([1, 2, 3] : List ℚ)[i + 1 - min (i + 1) 4 + k]?) ∧
        rollingVar [1, 2, 3] 0 = none ∧ zScore [1, 2, 3] 0 = none ∧
        ∀ t : ℝ, ¬ isAnomaly [1, 2, 3] 0 t) :=
  ⟨by norm_num, rolling_window_and_first_period [1, 2, 3] (by norm_num)⟩

/-- C2 counterexample: a non-trivial 3-row series object is changed by
`detect_anomalies` — the in-place assignments of lines 44–49 add the
derived columns to the caller's frame, so the operation is not pure over
an immutable input. -/
theorem detect_anomalies_mutates_input :
    detectAnomaliesEffect
        ⟨[Date.mk 2023 1 1, Date.mk 2023 4 1, Date.mk 2023 7 1], [1, 2, 3], []⟩ ≠
      ⟨[Date.mk 2023 1 1, Date.mk 2023 4 1, Date.mk 2023 7 1], [1, 2, 3], []⟩ := by
  intro hcontra
  have hcols := congrArg Frame.extraCols hcontra
  simp [detectAnomaliesEffect] at hcols

/-- C2 (amended): `detect_anomalies` adds the columns `mean`, `std`,
`z_score`, `is_anomaly` to its input frame whenever the series has at least
3 rows (and leaves it unchanged below that, where it returns early);
`detect_safety_signals` likewise adds `pct_change` and `abs_change` at 2 or
more rows; `compare_drug_trends` and `generate_summary_stats` only read
their inputs and leave them unchanged. -/
theorem core_operation_frame_effects :
    (∀ f : Frame, 3 ≤ f.y.length →
      detectAnomaliesEffect f =
          { f with extraCols := f.extraCols ++ ["mean", "std", "z_score", "is_anomaly"] } ∧
        detectAnomaliesEffect f ≠ f) ∧
    (∀ f : Frame, f.y.length < 3 → detectAnomaliesEffect f = f) ∧
    (∀ f : Frame, 2 ≤ f.y.length →
      detectSafetySignalsEffect f =
          { f with extraCols := f.extraCols ++ ["pct_change", "abs_change"] } ∧
        detectSafetySignalsEffect f ≠ f) ∧
    (∀ f : Frame, f.y.length < 2 → detectSafetySignalsEffect f = f) ∧
    (∀ data : List (String × Frame), compareDrugTrendsEffect data = data) ∧
    (∀ f : Frame, generateSummaryStatsEffect f = f) := by
  refine ⟨?_, ?_, ?_, ?_, fun _ => rfl, fun _ => rfl⟩
  · intro f hf
    have hne : ¬ f.y.length < 3 := by omega
    refine ⟨by rw [detectAnomaliesEffect, if_neg hne], ?_⟩
    intro hcontra
    rw [detectAnomaliesEffect, if_neg hne] at hcontra
    have hcols := congrArg Frame.extraCols hcontra
    simp at hcols
  · intro f hf
    rw [detectAnomaliesEffect, if_pos hf]
  · intro f hf
    have hne : ¬ f.y.length < 2 := by omega
    refine ⟨by rw [detectSafetySignalsEffect, if_neg hne], ?_⟩
    intro hcontra
    rw [detectSafetySignalsEffect, if_neg hne] at hcontra
    have hcols := congrArg Frame.extraCols hcontra
    simp at hcols
  · intro f hf
    rw [detectSafetySignalsEffect, if_pos hf]

/-- Witness for C2 (amended) at a concrete 3-row frame and at an empty
comparator input. -/
theorem core_operation_frame_effects_instance :
    3 ≤ (Frame.mk [Date.mk 2023 1 1, Date.mk 2023 4 1, Date.mk 2023 7 1] [1, 2, 3] []).y.length ∧
      (detectAnomaliesEffect
          (Frame.mk [Date.mk 2023 1 1, Date.mk 2023 4 1, Date.mk 2023 7 1] [1, 2, 3] []) =
        { Frame.mk [Date.mk 2023 1 1, Date.mk 2023 4 1, Date.mk 2023 7 1] [1, 2, 3] [] with
            extraCols := (Frame.mk [Date.mk 2023 1 1, Date.mk 2023 4 1, Date.mk 2023 7 1]
                [1, 2, 3] []).extraCols ++ ["mean", "std", "z_score", "is_anomaly"] } ∧
        detectAnomaliesEffect
            (Frame.mk [Date.mk 2023 1 1, Date.mk 2023 4 1, Date.mk 2023 7 1] [1, 2, 3] []) ≠
          Frame.mk [Date.mk 2023 1 1, Date.mk 2023 4 1, Date.mk 2023 7 1] [1, 2, 3] []) :=
  ⟨by simp, core_operation_frame_effects.1 _ (by simp)⟩

/-- C3 counterexample: on a 1-row series, `train_prophet_model` raises
nothing — it returns `None` (after printing a notice), so no
`InsufficientDataError` (or any error) escapes; the claim's "fails with
InsufficientDataError (a raised, recoverable error)" is false of the code.
-/
theorem short_series_training_returns_none_not_error :
    trainProphetModel [(Date.mk 2023 1 1, 3)] (1 / 20) = .ok none ∧
      ∀ e : PipelineError, trainProphetModel [(Date.mk 2023 1 1, 3)] (1 / 20) ≠ .error e := by
  have h : trainProphetModel [(Date.mk 2023 1 1, 3)] (1 / 20) = .ok none := rfl
  refine ⟨h, fun e hcontra => ?_⟩
  rw [h] at hcontra
  exact Except.noConfusion hcontra

/-- C3 (amended): on fewer than 2 historical points `train_prophet_model`
returns `None` without raising any error, `generate_forecast` on the absent
model returns an empty forecast, and the pipeline proceeds: the summary it
then builds simply lacks the three forecast fields (forecast unavailable).
-/
theorem insufficient_data_path (rows : List (Date × ℚ)) (cp : ℚ) (periods : ℕ)
    (predict : ProphetModel → ℕ → List ForecastRow) (h : rows.length < 2) :
    trainProphetModel rows cp = .ok none ∧
      (∀ e : PipelineError, trainProphetModel rows cp ≠ .error e) ∧
      generateForecast predict none periods = [] ∧
      ∀ s, generateSummaryStats rows [] = some s →
        s.forecast_next_quarter = none ∧ s.forecast_upper_bound = none ∧
          s.forecast_lower_bound = none := by
  have htrain : trainProphetModel rows cp = .ok none := by
    rw [trainProphetModel, if_pos h]
  refine ⟨htrain, fun e hcontra => ?_, rfl, ?_⟩
  · rw [htrain] at hcontra
    exact Except.noConfusion hcontra
  · intro s hs
    cases rows with
    | nil => exact absurd hs (by rw [generateSummaryStats]; simp)
    | cons r rs =>
      rw [generateSummaryStats] at hs
      rw [Option.some_inj] at hs
      subst hs
      exact ⟨rfl, rfl, rfl⟩

/-- Witness for C3 (amended) at a concrete 1-row series. -/
theorem insufficient_data_path_instance :
    ([(Date.mk 2023 1 1, 3)] : List (Date × ℚ)).length < 2 ∧
      (trainProphetModel [(Date.mk 2023 1 1, 3)] (1 / 20) = .ok none ∧
        (∀ e : PipelineError,
          trainProphetModel [(Date.mk 2023 1 1, 3)] (1 / 20) ≠ .error e) ∧
        generateForecast (fun _ _ => []) none 4 = [] ∧
        ∀ s, generateSummaryStats [(Date.mk 2023 1 1, 3)] [] = some s →
          s.forecast_next_quarter = none ∧ s.forecast_upper_bound = none ∧
            s.forecast_lower_bound = none) :=
  ⟨by simp, insufficient_data_path [(Date.mk 2023 1 1, 3)] (1 / 20) 4 (fun _ _ => [])
    (by simp)⟩

/-- C6 counterexample: on the series `[(Q1,10),(Q2,20),(Q3,5)]` the
comparator's `recent_avg_quarterly` is `round(35/3, 1) = 11.7`, not the
`11.67` the claim states (nor the exact mean `35/3`). -/
theorem comparator_recent_average_rounds :
    (compareRow "A"
        [(Date.mk 2023 1 1, 10), (Date.mk 2023 4 1, 20), (Date.mk 2023 7 1, 5)]).map
        (fun row => row.recent_avg_quarterly) = some (117 / 10) ∧
      (117 / 10 : ℚ) ≠ 1167 / 100 ∧ (117 / 10 : ℚ) ≠ 35 / 3 := by
  refine ⟨?_, by norm_num, by norm_num⟩
  norm_num [compareRow, listMean, lastN, pyRound, roundHalfEven]

/-- C6 (amended): the comparator row for `[(Q1,10),(Q2,20),(Q3,5)]` has
`peak_quarter = Q2`, `peak_reports = 20`, `total_reports = 35` and
`recent_avg_quarterly = 11.7` — the mean `35/3` of all periods (fewer than
4 exist) rounded to 1 decimal place, with the peak tie-broken to the
earliest period by `idxmax`. -/
theorem comparator_example_row :
    compareRow "A"
        [(Date.mk 2023 1 1, 10), (Date.mk 2023 4 1, 20), (Date.mk 2023 7 1, 5)] =
      some { drug := "A", total_reports := 35, recent_avg_quarterly := 117 / 10,
             peak_quarter := Date.mk 2023 4 1, peak_reports := 20 } := by
  norm_num [compareRow, listMean, lastN, idxmaxQ, listMaxQ, pyInt, pyRound, roundHalfEven,
    List.findIdx_cons, List.foldl_cons, List.foldl_nil, max_def, ComparisonRow.mk.injEq]

/-- C7: for every non-empty series, the digest's trend is `"increasing"`
exactly when the last count strictly exceeds the first, and `"decreasing"`
exactly otherwise — so equal first and last counts yield `"decreasing"`. -/
theorem trend_direction_characterization (rows : List (Date × ℚ))
    (fc : List ForecastRow) (h : rows ≠ []) :
    ∃ s, generateSummaryStats rows fc = some s ∧
      (s.trend = "increasing" ↔
        (rows.map Prod.snd).headD 0 < (rows.map Prod.snd).getLastD 0) ∧
      (s.trend = "decreasing" ↔
        ¬ (rows.map Prod.snd).headD 0 < (rows.map Prod.snd).getLastD 0) := by
  cases rows with
  | nil => exact absurd rfl h
  | cons r rs =>
    refine ⟨_, rfl, ?_, ?_⟩
    · split_ifs with hlt
      · exact iff_of_true rfl hlt
      · refine iff_of_false ?_ hlt
        show ¬ ("decreasing" = "increasing")
        decide
    · split_ifs with hlt
      · refine iff_of_false ?_ (not_not_intro hlt)
        show ¬ ("increasing" = "decreasing")
        decide
      · exact iff_of_true rfl hlt

/-- Witness for C7 at a 2-row series with equal first and last counts: the
trend is `"decreasing"`. -/
theorem trend_direction_characterization_instance :
    ([(Date.mk 2023 1 1, 5), (Date.mk 2023 4 1, 5)] : List (Date × ℚ)) ≠ [] ∧
      ∃ s, generateSummaryStats [(Date.mk 2023 1 1, 5), (Date.mk 2023 4 1, 5)] [] = some s ∧
        (s.trend = "increasing" ↔
          (([(Date.mk 2023 1 1, 5), (Date.mk 2023 4 1, 5)] : List (Date × ℚ)).map
              Prod.snd).headD 0 <
            (([(Date.mk 2023 1 1, 5), (Date.mk 2023 4 1, 5)] : List (Date × ℚ)).map
              Prod.snd).getLastD 0) ∧
        (s.trend = "decreasing" ↔
          ¬ (([(Date.mk 2023 1 1, 5), (Date.mk 2023 4 1, 5)] : List (Date × ℚ)).map
              Prod.snd).headD 0 <
            (([(Date.mk 2023 1 1, 5), (Date.mk 2023 4 1, 5)] : List (Date × ℚ)).map
              Prod.snd).getLastD 0) :=
  ⟨by simp, trend_direction_characterization _ [] (by simp)⟩

/-- The last period of a series (`df.iloc[-1]['ds']` on a non-empty frame).
-/
def lastPeriod (rows : List (Date × ℚ)) : Date :=
  (rows.map Prod.fst).getLastD (Date.mk 0 0 0)

/-- In a list whose elements are pairwise related by `R` in order, the head
of the sublist satisfying `p` is a member satisfying `p`, and every member
satisfying `p` either equals it or is `R`-after it. -/
lemma head_filter_first {α : Type} (R : α → α → Prop) (p : α → Bool) :
    ∀ l : List α, l.Pairwise R → ∀ x₀, (l.filter p).head? = some x₀ →
      x₀ ∈ l ∧ p x₀ = true ∧ ∀ x ∈ l, p x = true → x = x₀ ∨ R x₀ x := by
  intro l
  induction l with
  | nil =>
    intro _ x₀ hx
    simp at hx
  | cons a l ih =>
    intro hp x₀ hx
    rw [List.pairwise_cons] at hp
    rw [List.filter_cons] at hx
    by_cases hpa : p a = true
    · rw [if_pos hpa] at hx
      rw [List.head?_cons, Option.some_inj] at hx
      subst hx
      refine ⟨List.mem_cons_self a l, hpa, ?_⟩
      intro x hxmem hpx
      rcases List.mem_cons.1 hxmem with rfl | hxl
      · exact Or.inl rfl
      · exact Or.inr (hp.1 x hxl)
    · rw [if_neg hpa] at hx
      obtain ⟨hmem, hpx₀, hmin⟩ := ih hp.2 x₀ hx
      refine ⟨List.mem_cons_of_mem a hmem, hpx₀, ?_⟩
      intro x hxmem hpx
      rcases List.mem_cons.1 hxmem with rfl | hxl
      · exact absurd hpx hpa
      · exact hmin x hxl hpx

/-- Over a strictly increasing date column, the running maximum taken by
`maxDate` is the last element. -/
lemma maxDate_sorted : ∀ (d : Date) (l : List Date),
    List.Pairwise (fun a b => a.ltb b = true) (d :: l) →
    maxDate d l = l.getLastD d := by
  intro d l
  induction l generalizing d with
  | nil => intro _; rfl
  | cons x xs ih =>
    intro hp
    rw [List.pairwise_cons] at hp
    have hdx : d.ltb x = true := hp.1 x (List.mem_cons_self x xs)
    have hstep : maxDate d (x :: xs) = maxDate x xs := by
      rw [maxDate, List.foldl_cons, if_pos hdx]
      rfl
    rw [hstep, List.getLastD_cons]
    exact ih x hp.2

/-- C8: for a non-empty series sorted by period and a forecast frame sorted
by period, the digest records the rounded point estimate and both bounds of
the first forecast row strictly after the series' last period — which is
also the earliest such row — and omits all three fields (`none`, no
sentinel) when no forecast row lies strictly after the last period. -/
theorem forecast_digest_fields (rows : List (Date × ℚ)) (fc : List ForecastRow)
    (h : rows ≠ [])
    (hs : List.Pairwise (fun u v : Date × ℚ => u.1.ltb v.1 = true) rows)
    (hf : List.Pairwise (fun u v : ForecastRow => u.ds.ltb v.ds = true) fc) :
    ∃ s, generateSummaryStats rows fc = some s ∧
      ((∀ fr ∈ fc, ¬ (lastPeriod rows).ltb fr.ds = true) →
        s.forecast_next_quarter = none ∧ s.forecast_upper_bound = none ∧
          s.forecast_lower_bound = none) ∧
      ∀ fr₀, (fc.filter (fun fr => (lastPeriod rows).ltb fr.ds)).head? = some fr₀ →
        (fr₀ ∈ fc ∧ (lastPeriod rows).ltb fr₀.ds = true ∧
          ∀ fr ∈ fc, (lastPeriod rows).ltb fr.ds = true →
            fr = fr₀ ∨ fr₀.ds.ltb fr.ds = true) ∧
        s.forecast_next_quarter = some (pyRound fr₀.yhat 1) ∧
        s.forecast_upper_bound = some (pyRound fr₀.yhat_upper 1) ∧
        s.forecast_lower_bound = some (pyRound fr₀.yhat_lower 1) := by
  cases rows with
  | nil => exact absurd rfl h
  | cons r rs =>
    have hpdates : List.Pairwise (fun a b : Date => a.ltb b = true)
        (r.1 :: rs.map Prod.fst) := by
      have hmapped := List.Pairwise.map (S := fun a b : Date => a.ltb b = true)
        Prod.fst (fun a b hab => hab) hs
      simpa using hmapped
    have hmax : maxDate r.1 (rs.map Prod.fst) = lastPeriod (r :: rs) := by
      rw [maxDate_sorted r.1 (rs.map Prod.fst) hpdates, lastPeriod, List.map_cons,
        List.getLastD_cons]
    refine ⟨_, rfl, ?_, ?_⟩
    · intro hnone
      have hfilter :
          fc.filter (fun fr => (maxDate r.1 (rs.map Prod.fst)).ltb fr.ds) = [] := by
        rw [List.filter_eq_nil_iff]
        intro fr hfr
        rw [hmax]
        exact hnone fr hfr
      refine ⟨?_, ?_, ?_⟩ <;>
        · dsimp only
          rw [hfilter]
          rfl
    · intro fr₀ h₀
      have h₀' :
          (fc.filter (fun fr => (maxDate r.1 (rs.map Prod.fst)).ltb fr.ds)).head? =
            some fr₀ := by
        rw [hmax]
        exact h₀
      obtain ⟨hmem, hp₀, hmin⟩ :=
        head_filter_first (fun u v : ForecastRow => u.ds.ltb v.ds = true)
          (fun fr => (lastPeriod (r :: rs)).ltb fr.ds) fc hf fr₀ h₀
      refine ⟨⟨hmem, hp₀, hmin⟩, ?_, ?_, ?_⟩ <;>
        · dsimp only
          rw [h₀']
          rfl

/-- Witness for C8: on a 2-row sorted series whose last period is Q2 2023
and a sorted forecast with one historical row (Q2) and one future row (Q3),
the digest carries exactly the future row's rounded values. -/
theorem forecast_digest_fields_instance :
    ∃ s, generateSummaryStats [(Date.mk 2023 1 1, 5), (Date.mk 2023 4 1, 7)]
        [ForecastRow.mk (Date.mk 2023 4 1) 1 0 2,
          ForecastRow.mk (Date.mk 2023 7 1) 3 2 4] = some s ∧
      s.forecast_next_quarter = some (pyRound 3 1) ∧
      s.forecast_upper_bound = some (pyRound 4 1) ∧
      s.forecast_lower_bound = some (pyRound 2 1) := by
  obtain ⟨s, hsome, -, hsel⟩ :=
    forecast_digest_fields [(Date.mk 2023 1 1, 5), (Date.mk 2023 4 1, 7)]
      [ForecastRow.mk (Date.mk 2023 4 1) 1 0 2, ForecastRow.mk (Date.mk 2023 7 1) 3 2 4]
      (by simp) (by simp [List.pairwise_cons, Date.ltb]) (by simp [List.pairwise_cons, Date.ltb])
  obtain ⟨-, h1, h2, h3⟩ := hsel (ForecastRow.mk (Date.mk 2023 7 1) 3 2 4) rfl
  exact ⟨s, hsome, h1, h2, h3⟩

/-- C9 counterexample: on a concrete one-row series, the digest's
`data_start` is the pre-formatted string `"2023-01-15"` produced by
`strftime('%Y-%m-%d')` — it is not a semantic date value for any date. -/
theorem digest_dates_are_strings :
    (generateSummaryStats [(Date.mk 2023 1 15, 3)] []).map (fun s => s.data_start) =
        some (DVal.str "2023-01-15") ∧
      ∀ d : Date, (generateSummaryStats [(Date.mk 2023 1 15, 3)] []).map
          (fun s => s.data_start) ≠ some (DVal.date d) := by
  have h : (generateSummaryStats [(Date.mk 2023 1 15, 3)] []).map (fun s => s.data_start) =
      some (DVal.str "2023-01-15") := rfl
  refine ⟨h, fun d hcontra => ?_⟩
  rw [h, Option.some_inj] at hcontra
  exact DVal.noConfusion hcontra

/-- C9 (amended): for every non-empty series the digest's `data_start` and
`data_end` are the `%Y-%m-%d` `strftime` string renderings of the minimum
and maximum period — locale-fixed but format-dependent strings, not
semantic date values. -/
theorem digest_date_fields_are_formatted_strings (rows : List (Date × ℚ))
    (fc : List ForecastRow) (h : rows ≠ []) :
    ∃ s, generateSummaryStats rows fc = some s ∧
      s.data_start = DVal.str (strftimeYmd
        (minDate (rows.headD (Date.mk 0 0 0, 0)).1 (rows.tail.map Prod.fst))) ∧
      s.data_end = DVal.str (strftimeYmd
        (maxDate (rows.headD (Date.mk 0 0 0, 0)).1 (rows.tail.map Prod.fst))) ∧
      (∀ d : Date, s.data_start ≠ DVal.date d) ∧
      ∀ d : Date, s.data_end ≠ DVal.date d := by
  cases rows with
  | nil => exact absurd rfl h
  | cons r rs =>
    exact ⟨_, rfl, rfl, rfl, fun d hcontra => DVal.noConfusion hcontra,
      fun d hcontra => DVal.noConfusion hcontra⟩

/-- Witness for C9 (amended) at a concrete one-row series. -/
theorem digest_date_fields_instance :
    ([(Date.mk 2023 1 15, 3)] : List (Date × ℚ)) ≠ [] ∧
      ∃ s, generateSummaryStats [(Date.mk 2023 1 15, 3)] [] = some s ∧
        s.data_start = DVal.str (strftimeYmd
          (minDate (([(Date.mk 2023 1 15, 3)] : List (Date × ℚ)).headD
            (Date.mk 0 0 0, 0)).1
            (([(Date.mk 2023 1 15, 3)] : List (Date × ℚ)).tail.map Prod.fst))) ∧
        s.data_end = DVal.str (strftimeYmd
          (maxDate (([(Date.mk 2023 1 15, 3)] : List (Date × ℚ)).headD
            (Date.mk 0 0 0, 0)).1
            (([(Date.mk 2023 1 15, 3)] : List (Date × ℚ)).tail.map Prod.fst))) ∧
        (∀ d : Date, s.data_start ≠ DVal.date d) ∧
        ∀ d : Date, s.data_end ≠ DVal.date d :=
  ⟨by simp, digest_date_fields_are_formatted_strings [(Date.mk 2023 1 15, 3)] [] (by simp)⟩

/-- C10: the digest's mean and sample standard deviation are returned as
`round(·, 2)` of the exact statistic, its forecast point and bounds (when
present) as `round(·, 1)` of some forecast row's values, and its totals as
`int(·)` truncations; the comparator's recent average is `round(·, 1)` of
the last-4 (or whole-series) mean, and its totals and peak counts are
`int(·)` truncations. -/
theorem outputs_are_rounded :
    (∀ (rows : List (Date × ℚ)) (fc : List ForecastRow), rows ≠ [] →
      ∃ s, generateSummaryStats rows fc = some s ∧
        s.avg_quarterly_reports = pyRound (listMean (rows.map Prod.snd)) 2 ∧
        s.std_quarterly_reports =
          (sampleVar (rows.map Prod.snd)).map
            (fun v : ℚ => pyRoundR (Real.sqrt (v : ℝ)) 2) ∧
        s.total_reports = pyInt (rows.map Prod.snd).sum ∧
        s.recent_quarter_reports = pyInt ((rows.map Prod.snd).getLastD 0) ∧
        (∀ q, s.forecast_next_quarter = some q →
          ∃ fr ∈ fc, q = pyRound fr.yhat 1) ∧
        (∀ q, s.forecast_upper_bound = some q →
          ∃ fr ∈ fc, q = pyRound fr.yhat_upper 1) ∧
        (∀ q, s.forecast_lower_bound = some q →
          ∃ fr ∈ fc, q = pyRound fr.yhat_lower 1)) ∧
    ∀ (drug : String) (rows : List (Date × ℚ)), rows ≠ [] →
      ∃ row, compareRow drug rows = some row ∧
        row.recent_avg_quarterly =
          pyRound (if 4 ≤ rows.length then listMean (lastN 4 (rows.map Prod.snd))
            else listMean (rows.map Prod.snd)) 1 ∧
        row.total_reports = pyInt (rows.map Prod.snd).sum ∧
        row.peak_reports =
          pyInt (listMaxQ ((rows.map Prod.snd).headD 0) ((rows.map Prod.snd).tail)) := by
  constructor
  · intro rows fc h
    cases rows with
    | nil => exact absurd rfl h
    | cons r rs =>
      refine ⟨_, rfl, rfl, rfl, rfl, rfl, ?_, ?_, ?_⟩ <;>
        · intro q hq
          dsimp only at hq
          rcases hhead : (fc.filter
              (fun fr => (maxDate r.1 (rs.map Prod.fst)).ltb fr.ds)).head? with - | fr₀
          · rw [hhead] at hq
            exact Option.noConfusion hq
          · rw [hhead] at hq
            rw [Option.map_some', Option.some_inj] at hq
            refine ⟨fr₀, ?_, hq.symm⟩
            exact List.mem_of_mem_filter (List.mem_of_mem_head? (by rw [hhead]; rfl))
  · intro drug rows h
    cases rows with
    | nil => exact absurd rfl h
    | cons r rs =>
      have hlen : ((r :: rs).map Prod.snd).length = (r :: rs).length := by
        rw [List.length_map]
      exact ⟨_, rfl, by rw [← hlen], rfl, rfl⟩

/-- Witness for C10 at a concrete 2-row series with an empty forecast frame
and the same series under the comparator. -/
theorem outputs_are_rounded_instance :
    (([(Date.mk 2023 1 1, 5), (Date.mk 2023 4 1, 7)] : List (Date × ℚ)) ≠ [] ∧
      ∃ s, generateSummaryStats [(Date.mk 2023 1 1, 5), (Date.mk 2023 4 1, 7)] [] = some s ∧
        s.avg_quarterly_reports =
          pyRound (listMean (([(Date.mk 2023 1 1, 5), (Date.mk 2023 4 1, 7)] :
            List (Date × ℚ)).map Prod.snd)) 2 ∧
        s.std_quarterly_reports =
          (sampleVar (([(Date.mk 2023 1 1, 5), (Date.mk 2023 4 1, 7)] :
            List (Date × ℚ)).map Prod.snd)).map
            (fun v : ℚ => pyRoundR (Real.sqrt (v : ℝ)) 2) ∧
        s.total_reports = pyInt ((([(Date.mk 2023 1 1, 5), (Date.mk 2023 4 1, 7)] :
          List (Date × ℚ)).map Prod.snd)).sum ∧
        s.recent_quarter_reports = pyInt ((([(Date.mk 2023 1 1, 5), (Date.mk 2023 4 1, 7)] :
          List (Date × ℚ)).map Prod.snd).getLastD 0) ∧
        (∀ q, s.forecast_next_quarter = some q →
          ∃ fr ∈ ([] : List ForecastRow), q = pyRound fr.yhat 1) ∧
        (∀ q, s.forecast_upper_bound = some q →
          ∃ fr ∈ ([] : List ForecastRow), q = pyRound fr.yhat_upper 1) ∧
        ∀ q, s.forecast_lower_bound = some q →
          ∃ fr ∈ ([] : List ForecastRow), q = pyRound fr.yhat_lower 1) ∧
      (([(Date.mk 2023 1 1, 5), (Date.mk 2023 4 1, 7)] : List (Date × ℚ)) ≠ [] ∧
        ∃ row, compareRow "A" [(Date.mk 2023 1 1, 5), (Date.mk 2023 4 1, 7)] = some row ∧
          row.recent_avg_quarterly =
            pyRound (if 4 ≤ ([(Date.mk 2023 1 1, 5), (Date.mk 2023 4 1, 7)] :
                List (Date × ℚ)).length then
                listMean (lastN 4 (([(Date.mk 2023 1 1, 5), (Date.mk 2023 4 1, 7)] :
                  List (Date × ℚ)).map Prod.snd))
              else listMean (([(Date.mk 2023 1 1, 5), (Date.mk 2023 4 1, 7)] :
                List (Date × ℚ)).map Prod.snd)) 1 ∧
          row.total_reports = pyInt ((([(Date.mk 2023 1 1, 5), (Date.mk 2023 4 1, 7)] :
            List (Date × ℚ)).map Prod.snd)).sum ∧
          row.peak_reports =
            pyInt (listMaxQ ((([(Date.mk 2023 1 1, 5), (Date.mk 2023 4 1, 7)] :
              List (Date × ℚ)).map Prod.snd).headD 0)
              ((([(Date.mk 2023 1 1, 5), (Date.mk 2023 4 1, 7)] :
                List (Date × ℚ)).map Prod.snd).tail))) :=
  ⟨⟨by simp, outputs_are_rounded.1 [(Date.mk 2023 1 1, 5), (Date.mk 2023 4 1, 7)] []
      (by simp)⟩,
    ⟨by simp, outputs_are_rounded.2 "A" [(Date.mk 2023 1 1, 5), (Date.mk 2023 4 1, 7)]
      (by simp)⟩⟩
